import Mathlib

/-!
Shallow embedding of the CropSight analysis backend
(`src/app/api/analyze_field/route.ts`) and of the zone display logic of
`src/frontend/app/page.tsx`.

The handler is a mock: every numeric field is produced from successive
`Math.random()` draws.  We model the stream of draws as a function
`rand : Nat -> Rat`; a draw `rand n` is the n-th value consumed by the
handler, in source evaluation order (JS object literals evaluate their
properties top to bottom).  Valid streams satisfy `0 <= rand n < 1`.
`Date` arithmetic is modelled by a single integer day number `today`;
the generated date strings are represented by their day numbers, which
is faithful for every ordering property (ISO-8601 date strings compare
like their calendar dates).  The external Groq chat-completions call of
`generateAIInsights` is modelled by an explicit outcome value.
-/

/-- A JavaScript/JSON value, as far as the handler inspects one. -/
inductive JsVal where
  | str (s : String)
  | num (q : ℚ)
  | boolean (b : Bool)
  | arr (xs : List JsVal)
  | obj (fields : List (String × JsVal))
  | nullv

/-- JavaScript truthiness of a `JsVal` (used by `if (aiInsights)`). -/
def jsTruthy : JsVal → Bool
  | .str s => s ≠ ""
  | .num q => q ≠ 0
  | .boolean b => b
  | .arr _ => true
  | .obj _ => true
  | .nullv => false

/-- The request body fields the handler reads.  `num_zones` is `none` when the
field is absent from the JSON body; `crop_type` and `crop_growth_stage` are
passed through unchanged, so we keep them as arbitrary `JsVal`s. -/
structure Body where
  num_zones : Option ℚ
  crop_type : Option JsVal
  crop_growth_stage : Option JsVal
  use_ai_insights : Bool
  groq_api_key : Option String

/-- JS `body.num_zones || 3`: the value when truthy, else the default. -/
def numZonesOr3 (b : Body) : ℚ :=
  match b.num_zones with
  | some k => if k = 0 then 3 else k
  | none => 3

/-- JS truthiness of `body.groq_api_key`. -/
def keyTruthy (b : Body) : Bool :=
  match b.groq_api_key with
  | some s => s ≠ ""
  | none => false

/-- Field `ndvi_stats` of the mock response. -/
structure NdviStats where
  mean : ℚ
  stddev : ℚ
  min : ℚ
  max : ℚ
  deriving DecidableEq

/-- Field `ndvi_time_series` of the mock response; dates are day numbers. -/
structure NdviTimeSeries where
  dates : List ℤ
  ndvi_values : List ℚ
  mean_ndvi : ℚ
  trend : String
  deriving DecidableEq

/-- Field `rainfall_data` of the mock response; dates are day numbers. -/
structure RainfallData where
  dates : List ℤ
  rainfall_values : List ℚ
  total_rainfall : ℚ
  avg_daily_rainfall : ℚ
  max_daily_rainfall : ℚ
  deriving DecidableEq

/-- The composite mock response object built by `POST`. -/
structure MockResponse where
  ndvi_stats : NdviStats
  zones_identified : ℚ
  processing_time : ℚ
  recommendations : List String
  ndvi_time_series : NdviTimeSeries
  rainfall_data : RainfallData
  crop_type : Option JsVal
  crop_growth_stage : Option JsVal
  ai_insights : Option JsVal

/-- Outcome of the external Groq chat-completions call made by
`generateAIInsights`: the fetch itself throws, the response has a non-ok
status, reading/decoding the response body throws, or a content string is
obtained whose `JSON.parse` yields `parsed` (`none` when parsing throws). -/
inductive GroqOutcome where
  | netError
  | badStatus
  | readError
  | ok (content : String) (parsed : Option JsVal)

/-- The hard-coded structured object returned when `JSON.parse` of the AI
response fails (`route.ts` lines 62-71). -/
def fallbackInsights (content : String) : JsVal :=
  .obj
    [("report", .str content),
     ("suggestions", .arr
       [.str "Monitor field conditions regularly",
        .str "Consider soil testing in low-performing areas",
        .str "Implement variable rate application based on zones"]),
     ("risk_assessment", .str "Based on the analysis, monitor for potential stress indicators."),
     ("management_plan", .str "Continue current management practices and monitor field development.")]

/-- Function `generateAIInsights` (`route.ts` lines 3-77): every failure inside the
`try` block is caught and turned into `null` (`none`); a successfully read
content string is `JSON.parse`d, falling back to `fallbackInsights` when
parsing throws. -/
def generateAIInsights : GroqOutcome → Option JsVal
  | .netError => none
  | .badStatus => none
  | .readError => none
  | .ok content parsed =>
    match parsed with
    | some v => some v
    | none => some (fallbackInsights content)

/-- List `ndvi_time_series.dates` (`route.ts` lines 131-135): seven dates, the
i-th being `today - (6 - i) * 15` days. -/
def mkNdviDates (today : ℤ) : List ℤ :=
  List.ofFn fun i : Fin 7 => today - (6 - (i : ℤ)) * 15

/-- List `ndvi_time_series.ndvi_values` (`route.ts` line 136): seven values
`0.3 + i * 0.1 + (draw - 0.5) * 0.1`, consuming draws 5..11. -/
def mkNdviValues (rand : ℕ → ℚ) : List ℚ :=
  List.ofFn fun i : Fin 7 => 3/10 + (i : ℚ) * (1/10) + (rand (5 + i) - 1/2) * (1/10)

/-- List `rainfall_data.dates` (`route.ts` lines 141-145): ten dates, the i-th
being `today - (9 - i)` days. -/
def mkRainDates (today : ℤ) : List ℤ :=
  List.ofFn fun i : Fin 10 => today - (9 - (i : ℤ))

/-- List `rainfall_data.rainfall_values` (`route.ts` line 146): ten values
`draw * 20`, consuming draws 13..22. -/
def mkRainValues (rand : ℕ → ℚ) : List ℚ :=
  List.ofFn fun i : Fin 10 => rand (13 + i) * 20

/-- The five-string `recommendations` array (`route.ts` lines 123-129); the
third interpolates `body.num_zones || 3`. -/
def mkRecommendations (b : Body) : List String :=
  ["Field shows good overall vegetation health based on NDVI analysis.",
   "Focus on maintaining current management practices in high-vigor zones.",
   "Consider variable rate application based on the " ++ toString (numZonesOr3 b) ++
     " identified management zones.",
   "Take soil samples from each zone to determine specific nutrient requirements.",
   "Monitor low-vigor areas for potential stress factors or soil compaction."]

/-- The `mockResponse` object literal of `POST` (`route.ts` lines 114-153),
before the optional AI-insights step.  Draws are numbered in evaluation
order: mean 0, stddev 1, min 2, max 3, processing_time 4, ndvi_values 5-11,
trend 12, rainfall_values 13-22, total 23, avg 24, max_daily 25. -/
def baseResponse (b : Body) (rand : ℕ → ℚ) (today : ℤ) : MockResponse :=
  { ndvi_stats :=
      { mean := 13/20 + (rand 0 - 1/2) * (1/5)
        stddev := 3/25 + (rand 1 - 1/2) * (1/20)
        min := 1/4 + (rand 2 - 1/2) * (1/10)
        max := 17/20 + (rand 3 - 1/2) * (1/10) }
    zones_identified := numZonesOr3 b
    processing_time := 3/2 + rand 4
    recommendations := mkRecommendations b
    ndvi_time_series :=
      { dates := mkNdviDates today
        ndvi_values := mkNdviValues rand
        mean_ndvi := 13/20
        trend := if rand 12 > 1/2 then "increasing" else "decreasing" }
    rainfall_data :=
      { dates := mkRainDates today
        rainfall_values := mkRainValues rand
        total_rainfall := 216/5 + rand 23 * 20
        avg_daily_rainfall := 617/100 + rand 24 * 3
        max_daily_rainfall := 153/10 + rand 25 * 10 }
    crop_type := b.crop_type
    crop_growth_stage := b.crop_growth_stage
    ai_insights := none }

/-- The full analysis of a parsed body (`route.ts` lines 114-163): build the
mock response, then attach `ai_insights` when requested, a key is present,
and the (never-throwing) `generateAIInsights` returned a truthy value. -/
def analyzeField (b : Body) (rand : ℕ → ℚ) (today : ℤ) (g : GroqOutcome) : MockResponse :=
  let m := baseResponse b rand today
  if b.use_ai_insights && keyTruthy b then
    match generateAIInsights g with
    | some v => if jsTruthy v then { m with ai_insights := some v } else m
    | none => m
  else m

/-- A response of the route: a JSON success (status 200) or the catch-all
error response `{ error: "Analysis failed" }` with status 500. -/
inductive ApiResponse where
  | success (r : MockResponse)
  | serverError (msg : String) (status : ℕ)

/-- Handler `POST` (`route.ts` lines 79-168).  `parsedBody` is `none` when
`request.json()` throws, the only failing operation inside the `try`. -/
def POST (parsedBody : Option Body) (rand : ℕ → ℚ) (today : ℤ) (g : GroqOutcome) :
    ApiResponse :=
  match parsedBody with
  | none => .serverError "Analysis failed" 500
  | some b => .success (analyzeField b rand today g)

/-- Whether a response is the 200 success case. -/
def ApiResponse.isSuccess : ApiResponse → Bool
  | .success _ => true
  | .serverError _ _ => false

/-- Validity of a random stream: `Math.random()` yields values in `[0, 1)`. -/
def ValidDraws (rand : ℕ → ℚ) : Prop :=
  ∀ n, 0 ≤ rand n ∧ rand n < 1

/-! ### Zone display logic (`src/frontend/app/page.tsx` lines 675-699) -/

/-- The vigor label the frontend renders for the (0-based) i-th of n zones:
`i === 0` gives "Low vigor", `i === n - 1` gives "High vigor", anything
else "Moderate vigor". -/
def zoneLabel (n i : ℕ) : String :=
  if i = 0 then "Low vigor" else if i = n - 1 then "High vigor" else "Moderate vigor"

/-! ### Concrete inputs used by counterexamples and witnesses -/

/-- A concrete request body: 3 zones, no AI step. -/
def body0 : Body :=
  { num_zones := some 3
    crop_type := some (.str "wheat")
    crop_growth_stage := some (.str "vegetative")
    use_ai_insights := false
    groq_api_key := none }

/-- A concrete request body with an out-of-domain zone count. -/
def bodyNeg : Body :=
  { body0 with num_zones := some (-1) }

/-- The all-zero random stream (every draw is 0, a legal `Math.random` value). -/
def randZero : ℕ → ℚ := fun _ => 0

/-- A random stream whose only nonzero draw is draw 12 (the trend draw). -/
def randTrendUp : ℕ → ℚ := fun n => if n = 12 then 3/4 else 0

/-- A random stream with every draw equal to one half. -/
def randHalf : ℕ → ℚ := fun _ => 1/2

/-- A concrete request body that asks for AI insights with a key present. -/
def bodyAI : Body :=
  { body0 with use_ai_insights := true, groq_api_key := some "gsk_test" }

/-! ### Helper lemmas -/

/-- The AI step touches only the `ai_insights` field: `analyzeField` is
`baseResponse` with some `ai_insights` value substituted in. -/
theorem analyzeField_ai (b : Body) (rand : ℕ → ℚ) (today : ℤ) (g : GroqOutcome) :
    ∃ a : Option JsVal,
      analyzeField b rand today g = { baseResponse b rand today with ai_insights := a } := by
  unfold analyzeField
  by_cases hc : b.use_ai_insights && keyTruthy b
  · simp only [hc, if_true]
    cases hg : generateAIInsights g with
    | none => exact ⟨none, rfl⟩
    | some v =>
      by_cases hv : jsTruthy v
      · exact ⟨some v, by simp [hv]⟩
      · exact ⟨none, by simp only [hv, Bool.false_eq_true, if_false]; rfl⟩
  · simp only [hc, if_false]
    exact ⟨none, rfl⟩

/-- Projection of `analyzeField` to every field other than `ai_insights`. -/
theorem analyzeField_fields (b : Body) (rand : ℕ → ℚ) (today : ℤ) (g : GroqOutcome) :
    (analyzeField b rand today g).ndvi_stats = (baseResponse b rand today).ndvi_stats ∧
    (analyzeField b rand today g).zones_identified = (baseResponse b rand today).zones_identified ∧
    (analyzeField b rand today g).processing_time = (baseResponse b rand today).processing_time ∧
    (analyzeField b rand today g).recommendations = (baseResponse b rand today).recommendations ∧
    (analyzeField b rand today g).ndvi_time_series = (baseResponse b rand today).ndvi_time_series ∧
    (analyzeField b rand today g).rainfall_data = (baseResponse b rand today).rainfall_data ∧
    (analyzeField b rand today g).crop_type = (baseResponse b rand today).crop_type ∧
    (analyzeField b rand today g).crop_growth_stage = (baseResponse b rand today).crop_growth_stage := by
  obtain ⟨a, ha⟩ := analyzeField_ai b rand today g
  rw [ha]
  exact ⟨rfl, rfl, rfl, rfl, rfl, rfl, rfl, rfl⟩

/-- C1.  The claim as stated is false: the endpoint is not deterministic
across invocations with identical bodies, because each invocation consumes
fresh `Math.random()` draws.  Concretely, with the same body, clock and
AI outcome, the all-zero draw stream and the all-one-half draw stream (both
legal) give different `ndvi_stats.mean` values (11/20 versus 13/20). -/
theorem C1_counterexample :
    (analyzeField body0 randZero 0 .netError).ndvi_stats.mean ≠
      (analyzeField body0 randHalf 0 .netError).ndvi_stats.mean := by
  obtain ⟨_, h1⟩ := analyzeField_ai body0 randZero 0 .netError
  obtain ⟨_, h2⟩ := analyzeField_ai body0 randHalf 0 .netError
  rw [h1, h2]
  norm_num [baseResponse, randZero, randHalf]

/-- C1 (amended).  The result is a deterministic function of the request
body, the draw stream and the clock; across invocations that share only the
body and the clock, exactly the draw-free fields are guaranteed identical:
`zones_identified`, `recommendations`, the two crop echoes, `mean_ndvi` and
both date lists.  The draw-consuming fields (`ndvi_stats`, `trend`,
`rainfall` aggregates) vary with the stream, as `C1_counterexample` shows. -/
theorem C1_draw_free_fields_deterministic (b : Body) (t : ℤ) (g g' : GroqOutcome)
    (r r' : ℕ → ℚ) :
    (analyzeField b r t g).zones_identified = (analyzeField b r' t g').zones_identified ∧
    (analyzeField b r t g).recommendations = (analyzeField b r' t g').recommendations ∧
    (analyzeField b r t g).crop_type = (analyzeField b r' t g').crop_type ∧
    (analyzeField b r t g).crop_growth_stage = (analyzeField b r' t g').crop_growth_stage ∧
    (analyzeField b r t g).ndvi_time_series.mean_ndvi =
      (analyzeField b r' t g').ndvi_time_series.mean_ndvi ∧
    (analyzeField b r t g).ndvi_time_series.dates =
      (analyzeField b r' t g').ndvi_time_series.dates ∧
    (analyzeField b r t g).rainfall_data.dates =
      (analyzeField b r' t g').rainfall_data.dates := by
  obtain ⟨_, h1, _, h2, h3, h4, h5, h6⟩ := analyzeField_fields b r t g
  obtain ⟨_, h1', _, h2', h3', h4', h5', h6'⟩ := analyzeField_fields b r' t g'
  refine ⟨?_, ?_, ?_, ?_, ?_, ?_, ?_⟩ <;>
    simp only [h1, h2, h3, h4, h5, h6, h1', h2', h3', h4', h5', h6'] <;> rfl

/-- The generated NDVI series is strictly increasing for every valid draw
stream: consecutive values differ by `1/10` plus a noise difference lying
strictly inside `(-1/10, 1/10)`. -/
theorem mkNdviValues_strict_mono (rand : ℕ → ℚ) (hr : ValidDraws rand) :
    List.Chain' (· < ·) (mkNdviValues rand) := by
  rw [List.chain'_iff_get]
  intro i hi
  simp only [mkNdviValues, List.length_ofFn] at hi ⊢
  rw [List.get_ofFn, List.get_ofFn]
  simp only [Fin.cast_mk, Fin.val_mk]
  have h1 := hr (5 + i)
  have h2 := hr (5 + (i + 1))
  push_cast
  nlinarith [h1.1, h1.2, h2.1, h2.2]

/-- C2.  The claim as stated is false: on the all-zero draw stream the
generated NDVI value series is strictly increasing, yet the reported trend
is "decreasing", because the trend is an independent coin flip
(`Math.random() > 0.5`) that never looks at the series. -/
theorem C2_counterexample :
    List.Chain' (· < ·) (analyzeField body0 randZero 0 .netError).ndvi_time_series.ndvi_values ∧
    (analyzeField body0 randZero 0 .netError).ndvi_time_series.trend = "decreasing" := by
  obtain ⟨_, _, _, _, hts, _, _, _⟩ := analyzeField_fields body0 randZero 0 .netError
  rw [hts]
  constructor
  · exact mkNdviValues_strict_mono randZero (by intro n; constructor <;> norm_num [randZero])
  · norm_num [baseResponse, randZero]

/-- C2 (amended).  For every valid draw stream the date-ordered NDVI value
series is indeed strictly increasing, but the reported trend direction is
decided solely by draw 12: it is "increasing" exactly when that draw
exceeds one half, so a strictly increasing series can be reported as
"decreasing" (`C2_counterexample`). -/
theorem C2_trend_is_coin_flip (b : Body) (rand : ℕ → ℚ) (today : ℤ) (g : GroqOutcome)
    (hr : ValidDraws rand) :
    List.Chain' (· < ·) (analyzeField b rand today g).ndvi_time_series.ndvi_values ∧
    ((analyzeField b rand today g).ndvi_time_series.trend = "increasing" ↔ 1/2 < rand 12) := by
  obtain ⟨_, _, _, _, hts, _, _, _⟩ := analyzeField_fields b rand today g
  rw [hts]
  refine ⟨mkNdviValues_strict_mono rand hr, ?_⟩
  show (if rand 12 > 1/2 then "increasing" else "decreasing") = "increasing" ↔ 1/2 < rand 12
  by_cases h : 1/2 < rand 12
  · simp [h]
  · simp [h]

/-- Witness for `C2_trend_is_coin_flip`: the hypotheses hold for the stream
whose only nonzero draw is the trend draw `3/4`. -/
theorem C2_witness :
    ValidDraws randTrendUp ∧
    (List.Chain' (· < ·)
        (analyzeField body0 randTrendUp 0 .netError).ndvi_time_series.ndvi_values ∧
      ((analyzeField body0 randTrendUp 0 .netError).ndvi_time_series.trend = "increasing" ↔
        1/2 < randTrendUp 12)) := by
  have hv : ValidDraws randTrendUp := by
    intro n
    unfold randTrendUp
    split <;> norm_num
  exact ⟨hv, C2_trend_is_coin_flip body0 randTrendUp 0 .netError hv⟩

/-- C3.  The claim as stated is false: the recommendation list never varies
with the trend.  Two draw streams differing only in the trend draw produce
the two trend directions yet byte-identical recommendation lists, so no
item can be present exactly when the trend is "increasing" (or exactly when
it is "decreasing"). -/
theorem C3_counterexample :
    (analyzeField body0 randZero 0 .netError).ndvi_time_series.trend = "decreasing" ∧
    (analyzeField body0 randTrendUp 0 .netError).ndvi_time_series.trend = "increasing" ∧
    (analyzeField body0 randZero 0 .netError).recommendations =
      (analyzeField body0 randTrendUp 0 .netError).recommendations := by
  obtain ⟨_, _, _, hr1, hts1, _, _, _⟩ := analyzeField_fields body0 randZero 0 .netError
  obtain ⟨_, _, _, hr2, hts2, _, _, _⟩ := analyzeField_fields body0 randTrendUp 0 .netError
  rw [hts1, hts2, hr1, hr2]
  refine ⟨?_, ?_, rfl⟩
  · norm_num [baseResponse, randZero]
  · norm_num [baseResponse, randTrendUp]

/-- C3 (amended).  The recommendation list is the fixed five-item list below,
depending only on `num_zones` (interpolated into the third item) and on
nothing else — in particular it contains a trend-warning item never and a
trend-confirmation item never, whatever the trend direction is. -/
theorem C3_recommendations_fixed (b : Body) (rand : ℕ → ℚ) (today : ℤ) (g : GroqOutcome) :
    (analyzeField b rand today g).recommendations =
      ["Field shows good overall vegetation health based on NDVI analysis.",
       "Focus on maintaining current management practices in high-vigor zones.",
       "Consider variable rate application based on the " ++ toString (numZonesOr3 b) ++
         " identified management zones.",
       "Take soil samples from each zone to determine specific nutrient requirements.",
       "Monitor low-vigor areas for potential stress factors or soil compaction."] := by
  obtain ⟨_, _, _, hr, _, _, _, _⟩ := analyzeField_fields b rand today g
  rw [hr]
  rfl

/-- C4.  The claim as stated is false: the rainfall aggregates are drawn
independently of the sample list.  On the all-zero draw stream every
`rainfall_values` entry is `0` (sum `0`, maximum `0`), yet the reported
total is `216/5 = 43.2`, the average `617/100 = 6.17` and the maximum
`153/10 = 15.3`. -/
theorem C4_counterexample :
    (analyzeField body0 randZero 0 .netError).rainfall_data.rainfall_values.sum = 0 ∧
    (analyzeField body0 randZero 0 .netError).rainfall_data.total_rainfall = 216/5 ∧
    (analyzeField body0 randZero 0 .netError).rainfall_data.avg_daily_rainfall = 617/100 ∧
    (analyzeField body0 randZero 0 .netError).rainfall_data.max_daily_rainfall = 153/10 ∧
    (analyzeField body0 randZero 0 .netError).rainfall_data.total_rainfall ≠
      (analyzeField body0 randZero 0 .netError).rainfall_data.rainfall_values.sum := by
  obtain ⟨_, _, _, _, _, hrd, _, _⟩ := analyzeField_fields body0 randZero 0 .netError
  rw [hrd]
  refine ⟨?_, ?_, ?_, ?_, ?_⟩ <;>
    norm_num [baseResponse, mkRainValues, randZero, List.ofFn_succ]

/-- C4 (amended).  `total_rainfall`, `avg_daily_rainfall` and
`max_daily_rainfall` are three fresh random affine draws (draws 23-25),
computed without reference to `rainfall_values` (draws 13-22); no summing,
averaging or maximum-taking of the samples occurs. -/
theorem C4_rainfall_aggregates_independent (b : Body) (rand : ℕ → ℚ) (today : ℤ)
    (g : GroqOutcome) :
    (analyzeField b rand today g).rainfall_data.rainfall_values = mkRainValues rand ∧
    (analyzeField b rand today g).rainfall_data.total_rainfall = 216/5 + rand 23 * 20 ∧
    (analyzeField b rand today g).rainfall_data.avg_daily_rainfall = 617/100 + rand 24 * 3 ∧
    (analyzeField b rand today g).rainfall_data.max_daily_rainfall = 153/10 + rand 25 * 10 := by
  obtain ⟨_, _, _, _, _, hrd, _, _⟩ := analyzeField_fields b rand today g
  rw [hrd]
  exact ⟨rfl, rfl, rfl, rfl⟩

/-- C5.  The claim as stated is false: a request whose zone count is out of
domain (`num_zones = -1 ≤ 0`) is not rejected — the handler returns a 200
success whose `zones_identified` echoes `-1`.  No `InvalidParameterError`
exists anywhere in the route; the only error response is the catch-all
500 `"Analysis failed"`. -/
theorem C5_counterexample :
    (POST (some bodyNeg) randZero 0 .netError).isSuccess = true ∧
    (analyzeField bodyNeg randZero 0 .netError).zones_identified = -1 := by
  obtain ⟨_, hz, _, _, _, _, _, _⟩ := analyzeField_fields bodyNeg randZero 0 .netError
  rw [hz]
  exact ⟨rfl, by norm_num [baseResponse, numZonesOr3, bodyNeg, body0]⟩

/-- C5 (amended).  No zone-count validation happens: for every request body
whose `num_zones` is some `k ≤ 0`, `POST` still returns the 200 success
response, with `zones_identified = 3` when `k = 0` (JS falsiness kicks in
the `|| 3` default) and `zones_identified = k` when `k < 0`. -/
theorem C5_no_invalid_parameter_error (b : Body) (rand : ℕ → ℚ) (today : ℤ)
    (g : GroqOutcome) (k : ℚ) (hk : b.num_zones = some k) (_hk0 : k ≤ 0) :
    (POST (some b) rand today g).isSuccess = true ∧
    (analyzeField b rand today g).zones_identified = (if k = 0 then 3 else k) := by
  obtain ⟨_, hz, _, _, _, _, _, _⟩ := analyzeField_fields b rand today g
  rw [hz]
  refine ⟨rfl, ?_⟩
  show numZonesOr3 b = _
  rw [numZonesOr3, hk]

/-- Witness for `C5_no_invalid_parameter_error` at the concrete body with
`num_zones = -1`. -/
theorem C5_witness :
    bodyNeg.num_zones = some (-1) ∧ (-1 : ℚ) ≤ 0 ∧
    ((POST (some bodyNeg) randHalf 0 .netError).isSuccess = true ∧
      (analyzeField bodyNeg randHalf 0 .netError).zones_identified =
        (if (-1 : ℚ) = 0 then 3 else -1)) := by
  refine ⟨rfl, by norm_num, ?_⟩
  exact C5_no_invalid_parameter_error bodyNeg randHalf 0 .netError (-1) rfl (by norm_num)

/-- C7.  The dates of the NDVI time series handed to the response are in
strictly ascending calendar order: the i-th date is `today - (6 - i) * 15`
days, so consecutive dates are 15 days apart, for every body, draw stream,
clock value and AI outcome. -/
theorem C7_ndvi_dates_ascending (b : Body) (rand : ℕ → ℚ) (today : ℤ) (g : GroqOutcome) :
    List.Chain' (· < ·) (analyzeField b rand today g).ndvi_time_series.dates := by
  obtain ⟨_, _, _, _, hts, _, _, _⟩ := analyzeField_fields b rand today g
  rw [hts]
  show List.Chain' (· < ·) (mkNdviDates today)
  rw [mkNdviDates, List.chain'_iff_get]
  intro i hi
  simp only [List.length_ofFn] at hi ⊢
  rw [List.get_ofFn, List.get_ofFn]
  simp only [Fin.cast_mk, Fin.val_mk]
  have : (i : ℤ) < (i : ℤ) + 1 := by omega
  push_cast
  omega

/-- C8.  The claim is false only at the lower stddev endpoint: the open
interval `(0.095, 0.145)` excludes `0.095`, but the draw `0` is a legal
`Math.random()` value and yields `stddev = 0.12 + (0 - 0.5) * 0.05 = 19/200
= 0.095` exactly, which is not greater than `0.095`. -/
theorem C8_counterexample :
    (analyzeField body0 randZero 0 .netError).ndvi_stats.stddev = 19/200 ∧
    ¬ (19/200 < (analyzeField body0 randZero 0 .netError).ndvi_stats.stddev) := by
  obtain ⟨hs, _, _, _, _, _, _, _⟩ := analyzeField_fields body0 randZero 0 .netError
  rw [hs]
  norm_num [baseResponse, randZero]

/-- C8 (amended).  For every valid draw stream the returned `ndvi_stats`
satisfy `min < mean < max` and `stddev > 0` unconditionally, with
`min ∈ [1/5, 3/10)`, `mean ∈ [11/20, 3/4)`, `max ∈ [4/5, 9/10)` and
`stddev ∈ [19/200, 29/200)` — the stddev interval is closed on the left,
not open as the claim stated. -/
theorem C8_stats_bounds (b : Body) (rand : ℕ → ℚ) (today : ℤ) (g : GroqOutcome)
    (hr : ValidDraws rand) :
    (1/5 ≤ (analyzeField b rand today g).ndvi_stats.min ∧
      (analyzeField b rand today g).ndvi_stats.min < 3/10) ∧
    (11/20 ≤ (analyzeField b rand today g).ndvi_stats.mean ∧
      (analyzeField b rand today g).ndvi_stats.mean < 3/4) ∧
    (4/5 ≤ (analyzeField b rand today g).ndvi_stats.max ∧
      (analyzeField b rand today g).ndvi_stats.max < 9/10) ∧
    (19/200 ≤ (analyzeField b rand today g).ndvi_stats.stddev ∧
      (analyzeField b rand today g).ndvi_stats.stddev < 29/200) ∧
    (analyzeField b rand today g).ndvi_stats.min < (analyzeField b rand today g).ndvi_stats.mean ∧
    (analyzeField b rand today g).ndvi_stats.mean < (analyzeField b rand today g).ndvi_stats.max ∧
    0 < (analyzeField b rand today g).ndvi_stats.stddev := by
  obtain ⟨hs, _, _, _, _, _, _, _⟩ := analyzeField_fields b rand today g
  rw [hs]
  have h0 := hr 0
  have h1 := hr 1
  have h2 := hr 2
  have h3 := hr 3
  simp only [baseResponse]
  refine ⟨⟨?_, ?_⟩, ⟨?_, ?_⟩, ⟨?_, ?_⟩, ⟨?_, ?_⟩, ?_, ?_, ?_⟩ <;>
    nlinarith [h0.1, h0.2, h1.1, h1.2, h2.1, h2.2, h3.1, h3.2]

/-- Witness for `C8_stats_bounds` on the all-one-half draw stream. -/
theorem C8_witness :
    ValidDraws randHalf ∧
    ((1/5 ≤ (analyzeField body0 randHalf 0 .netError).ndvi_stats.min ∧
        (analyzeField body0 randHalf 0 .netError).ndvi_stats.min < 3/10) ∧
      (11/20 ≤ (analyzeField body0 randHalf 0 .netError).ndvi_stats.mean ∧
        (analyzeField body0 randHalf 0 .netError).ndvi_stats.mean < 3/4) ∧
      (4/5 ≤ (analyzeField body0 randHalf 0 .netError).ndvi_stats.max ∧
        (analyzeField body0 randHalf 0 .netError).ndvi_stats.max < 9/10) ∧
      (19/200 ≤ (analyzeField body0 randHalf 0 .netError).ndvi_stats.stddev ∧
        (analyzeField body0 randHalf 0 .netError).ndvi_stats.stddev < 29/200) ∧
      (analyzeField body0 randHalf 0 .netError).ndvi_stats.min <
        (analyzeField body0 randHalf 0 .netError).ndvi_stats.mean ∧
      (analyzeField body0 randHalf 0 .netError).ndvi_stats.mean <
        (analyzeField body0 randHalf 0 .netError).ndvi_stats.max ∧
      0 < (analyzeField body0 randHalf 0 .netError).ndvi_stats.stddev) := by
  have hv : ValidDraws randHalf := by intro n; constructor <;> norm_num [randHalf]
  exact ⟨hv, C8_stats_bounds body0 randHalf 0 .netError hv⟩

/-- C9.  When the external text-generation call fails (network error, non-ok
status, or a throw while reading the response), `generateAIInsights`
returns `null`, so the analysis result is exactly the pre-AI mock response:
no `ai_insights` field, every other field untouched, and `POST` still
answers with the 200 success response rather than an error. -/
theorem C9_ai_failure_transparent (b : Body) (rand : ℕ → ℚ) (today : ℤ) (g : GroqOutcome)
    (hg : g = .netError ∨ g = .badStatus ∨ g = .readError) :
    analyzeField b rand today g = baseResponse b rand today ∧
    (analyzeField b rand today g).ai_insights = none ∧
    (POST (some b) rand today g).isSuccess = true := by
  have hnone : generateAIInsights g = none := by
    rcases hg with h | h | h <;> rw [h] <;> rfl
  have heq : analyzeField b rand today g = baseResponse b rand today := by
    unfold analyzeField
    by_cases hc : b.use_ai_insights && keyTruthy b
    · simp [hc, hnone]
    · simp [hc]
  exact ⟨heq, by rw [heq]; rfl, rfl⟩

/-- Witness for `C9_ai_failure_transparent`: a body that requests AI
insights with a key present, and a failing (network-error) call. -/
theorem C9_witness :
    (GroqOutcome.netError = GroqOutcome.netError ∨
      GroqOutcome.netError = GroqOutcome.badStatus ∨
      GroqOutcome.netError = GroqOutcome.readError) ∧
    (analyzeField bodyAI randHalf 0 .netError = baseResponse bodyAI randHalf 0 ∧
      (analyzeField bodyAI randHalf 0 .netError).ai_insights = none ∧
      (POST (some bodyAI) randHalf 0 .netError).isSuccess = true) := by
  exact ⟨Or.inl rfl, C9_ai_failure_transparent bodyAI randHalf 0 .netError (Or.inl rfl)⟩

/-- C10.  Every parseable request is echoed: `crop_type` and
`crop_growth_stage` come back unchanged, and `zones_identified` is the
request's `num_zones` when that value is truthy (present and nonzero) and
the default `3` otherwise — for every draw stream, clock and AI outcome. -/
theorem C10_request_echo (b : Body) (rand : ℕ → ℚ) (today : ℤ) (g : GroqOutcome) :
    (POST (some b) rand today g).isSuccess = true ∧
    (analyzeField b rand today g).crop_type = b.crop_type ∧
    (analyzeField b rand today g).crop_growth_stage = b.crop_growth_stage ∧
    (analyzeField b rand today g).zones_identified =
      (match b.num_zones with
       | some k => if k = 0 then 3 else k
       | none => 3) := by
  obtain ⟨_, hz, _, _, _, _, hct, hcs⟩ := analyzeField_fields b rand today g
  exact ⟨rfl, by rw [hct]; rfl, by rw [hcs]; rfl, by rw [hz]; rfl⟩

/-- Modelled from the spec: a management `Zone` of the Segmentation Engine
(spec section 3), reduced to the two fields the ordering contract speaks
about — `id` (an integer ≥ 1) and `centroid_value`.  The engine itself is
absent from the repository sources (the backend is a mock), so this data
model follows the spec's words. -/
structure Zone where
  id : ℕ
  centroid_value : ℚ

/-- Assign consecutive ids starting at `n` to a list of centroid values. -/
def assignIds : ℕ → List ℚ → List Zone
  | _, [] => []
  | n, c :: cs => ⟨n, c⟩ :: assignIds (n + 1) cs

/-- Modelled from the spec: "Resulting zones are ordered by ascending
centroid value, so zone id 1 is always the lowest-vigor zone and the last
id the highest-vigor zone" (spec section 4.3).  The Zone Segmentation
Engine is absent from the repository sources, so we model its final
ordering step: sort the produced centroids ascending and number the zones
1..N in that order. -/
def orderZones (zs : List Zone) : List Zone :=
  assignIds 1 ((zs.map Zone.centroid_value).mergeSort fun a b => decide (a ≤ b))

/-- Length of `assignIds` output. -/
theorem assignIds_length (n : ℕ) (cs : List ℚ) : (assignIds n cs).length = cs.length := by
  induction cs generalizing n with
  | nil => rfl
  | cons c cs ih => simp [assignIds, ih]

/-- Ids produced by `assignIds` are the consecutive range starting at `n`. -/
theorem assignIds_ids (n : ℕ) (cs : List ℚ) :
    (assignIds n cs).map Zone.id = List.range' n cs.length := by
  induction cs generalizing n with
  | nil => rfl
  | cons c cs ih => simp [assignIds, List.range'_succ, ih]

/-- Centroids are unchanged by `assignIds`. -/
theorem assignIds_cents (n : ℕ) (cs : List ℚ) :
    (assignIds n cs).map Zone.centroid_value = cs := by
  induction cs generalizing n with
  | nil => rfl
  | cons c cs ih => simp [assignIds, ih]

/-- An ordered centroid list yields zones pairwise ordered by centroid. -/
theorem assignIds_pairwise (n : ℕ) (cs : List ℚ) (h : List.Pairwise (· ≤ ·) cs) :
    List.Pairwise (fun z w : Zone => z.centroid_value ≤ w.centroid_value) (assignIds n cs) := by
  induction cs generalizing n with
  | nil => exact List.Pairwise.nil
  | cons c cs ih =>
    obtain ⟨h1, h2⟩ := List.pairwise_cons.mp h
    refine List.pairwise_cons.mpr ⟨?_, ih (n + 1) h2⟩
    intro z hz
    have hmem : z.centroid_value ∈ (assignIds (n + 1) cs).map Zone.centroid_value :=
      List.mem_map_of_mem Zone.centroid_value hz
    rw [assignIds_cents] at hmem
    exact h1 _ hmem

/-- The sorted centroid list inside `orderZones` is pairwise ascending. -/
theorem sorted_cents (zs : List Zone) :
    List.Pairwise (· ≤ ·) ((zs.map Zone.centroid_value).mergeSort fun a b => decide (a ≤ b)) := by
  have h := @List.sorted_mergeSort ℚ (fun a b => decide (a ≤ b))
    (fun a b c hab hbc => by simp_all; exact le_trans hab hbc)
    (fun a b => by simp [le_total])
    (zs.map Zone.centroid_value)
  exact h.imp (fun h => of_decide_eq_true h)

/-- C6.  For every zone list the engine could produce, the ordered result
has centroids pairwise ascending with ids exactly `1..N` in that order, so
zone id 1 carries the smallest centroid (lowest vigor) and zone id N the
largest; and the frontend's per-zone labels respect this ordering for
`N ≥ 2`: position 0 (zone 1) is labeled "Low vigor" and position `N - 1`
(zone N) is labeled "High vigor". -/
theorem C6_zone_order_and_labels (zs : List Zone) (n : ℕ)
    (hn : n = (orderZones zs).length) (h2 : 2 ≤ n) :
    List.Pairwise (fun z w : Zone => z.centroid_value ≤ w.centroid_value) (orderZones zs) ∧
    (orderZones zs).map Zone.id = List.range' 1 n ∧
    zoneLabel n 0 = "Low vigor" ∧
    zoneLabel n (n - 1) = "High vigor" := by
  refine ⟨assignIds_pairwise 1 _ (sorted_cents zs), ?_, rfl, ?_⟩
  · rw [orderZones, assignIds_ids, hn, orderZones, assignIds_length]
  · rw [zoneLabel, if_neg (by omega), if_pos rfl]

/-- Witness for `C6_zone_order_and_labels` on a concrete three-zone list
with unsorted centroids. -/
theorem C6_witness :
    (3 = (orderZones [⟨1, 7/10⟩, ⟨2, 1/5⟩, ⟨3, 1/2⟩]).length ∧ 2 ≤ 3) ∧
    (List.Pairwise (fun z w : Zone => z.centroid_value ≤ w.centroid_value)
        (orderZones [⟨1, 7/10⟩, ⟨2, 1/5⟩, ⟨3, 1/2⟩]) ∧
      (orderZones [⟨1, 7/10⟩, ⟨2, 1/5⟩, ⟨3, 1/2⟩]).map Zone.id = List.range' 1 3 ∧
      zoneLabel 3 0 = "Low vigor" ∧
      zoneLabel 3 (3 - 1) = "High vigor") := by
  have hn : 3 = (orderZones [⟨1, 7/10⟩, ⟨2, 1/5⟩, ⟨3, 1/2⟩]).length := by
    rw [orderZones, assignIds_length, List.length_mergeSort]
    rfl
  exact ⟨⟨hn, by norm_num⟩,
    C6_zone_order_and_labels [⟨1, 7/10⟩, ⟨2, 1/5⟩, ⟨3, 1/2⟩] 3 hn (by norm_num)⟩
